import Mathlib

/-!
Shallow embedding of the email-verification core of the `email-finder-api`
repository (`src/email_verification.py`), together with theorems settling the
frozen claims about it.

Modelling conventions:
* Python `time.time()` is an explicit `now : Nat` argument to each stateful call.
* The module-level dictionary `_mx_cache` and the number of `dns.resolver.resolve`
  invocations are threaded through an explicit `MxState`.
* The DNS resolver is a pure oracle `String → DnsOutcome` supplied as a parameter;
  invoking it on the resolution path increments the `dnsCalls` counter.
* The remote SMTP peer is an `SMTPPeer` record: each dialogue step either returns
  the value the corresponding `smtplib` call would return, or raises an exception
  (`Except.error`), split into `smtplib.SMTPException` versus any other `Exception`
  exactly as the two `except` clauses of the source distinguish them.
* `hashlib.md5(...).hexdigest()` in `get_mx_cache_key` is a fixed deterministic
  post-processing of the lowercased domain; it is omitted from the model (the key
  is the case-folded domain itself) because every property stated here factors
  through equality of case-folded domains, which any deterministic function
  preserves.  MD5 collisions between distinct folded domains are not modelled.
* Python's `str.lower` is modelled on the basic-latin range (`Char.toLower`),
  the range relevant to domain names.
* Python byte strings returned by the peer (`message.decode()`) are modelled as
  `String` directly.
-/

/-- One parsed MX record, as the dictionaries built in
`check_mx_records_cached`: `{"priority": ..., "host": ...}`. -/
structure MxRecord where
  priority : Nat
  host : String
deriving Repr, DecidableEq

/-- The dictionary returned by `check_mx_records_cached`
(keys `domain`, `has_mx`, `accepts_email`, `mx_records`, `record_count`,
optionally `error`, and `cached`). -/
structure MxData where
  domain : String
  has_mx : Bool
  accepts_email : Bool
  mx_records : List MxRecord
  record_count : Nat
  error : Option String
  cached : Bool
deriving Repr, DecidableEq

/-- Outcome of `dns.resolver.resolve(domain, "MX")`: either a list of answers
(each with `preference` and raw `exchange` text), or one of the three named
DNS exceptions, or a generic exception carrying `str(e)`. -/
inductive DnsOutcome where
  | answers (records : List (Nat × String))
  | noAnswer
  | nxdomain
  | noNameservers
  | failure (msg : String)
deriving Repr, DecidableEq

/-- Explicit state: the module-level `_mx_cache` dictionary (cache key ↦
(cached dict, insertion timestamp)) plus a counter of DNS resolver invocations. -/
structure MxState where
  cache : List (String × MxData × Nat)
  dnsCalls : Nat
deriving Repr, DecidableEq

/-- `MX_CACHE_TTL = 3600`. -/
def MX_CACHE_TTL : Nat := 3600

/-- Python dict lookup `_mx_cache[k]` / `k in _mx_cache` on the association list. -/
def cacheFind (cache : List (String × MxData × Nat)) (k : String) :
    Option (MxData × Nat) :=
  match cache with
  | [] => none
  | (k', v) :: rest => if k' = k then some v else cacheFind rest k

/-- Python `del _mx_cache[k]`. -/
def cacheErase (cache : List (String × MxData × Nat)) (k : String) :
    List (String × MxData × Nat) :=
  cache.filter (fun kv => kv.1 ≠ k)

/-- Python dict assignment `_mx_cache[k] = v` (replaces any previous binding). -/
def cacheInsert (cache : List (String × MxData × Nat)) (k : String)
    (v : MxData × Nat) : List (String × MxData × Nat) :=
  (k, v) :: cacheErase cache k

/-- Model of Python `str.lower()` (basic-latin case folding, the range relevant
to domain names). -/
def lowerStr (s : String) : String :=
  ⟨s.data.map Char.toLower⟩

/-- `get_mx_cache_key(domain)`: the source returns
`hashlib.md5(domain.lower().encode()).hexdigest()`; the MD5 hex digest is a fixed
deterministic post-composition and is omitted (see module docstring), so the key
is modelled as the case-folded domain. -/
def get_mx_cache_key (domain : String) : String :=
  lowerStr domain

/-- `get_cached_mx(domain)`: return the cached dict if present and not expired;
delete an expired entry.  (`time.time()` is the explicit `now`.) -/
def get_cached_mx (now : Nat) (domain : String) (st : MxState) :
    Option MxData × MxState :=
  let cache_key := get_mx_cache_key domain
  match cacheFind st.cache cache_key with
  | some (cached_data, timestamp) =>
    if now - timestamp < MX_CACHE_TTL then (some cached_data, st)
    else (none, { st with cache := cacheErase st.cache cache_key })
  | none => (none, st)

/-- `cache_mx_records(domain, mx_data)`. -/
def cache_mx_records (now : Nat) (domain : String) (mx_data : MxData)
    (st : MxState) : MxState :=
  { st with cache := cacheInsert st.cache (get_mx_cache_key domain) (mx_data, now) }

/-- Python `s.rstrip(".")`: drop every trailing `'.'`. -/
def rstripDot (s : String) : String :=
  ⟨(s.data.reverse.dropWhile (fun c => c = '.')).reverse⟩

/-- Stable ascending insertion by the `priority` key (auxiliary to
`sortByPriority`). -/
def insertByPriority (r : MxRecord) : List MxRecord → List MxRecord
  | [] => [r]
  | x :: xs =>
    if r.priority < x.priority then r :: x :: xs
    else x :: insertByPriority r xs

/-- Model of Python's `mx_records.sort(key=lambda x: x["priority"])`: a stable
sort producing a list ascending in `priority`. -/
def sortByPriority : List MxRecord → List MxRecord
  | [] => []
  | r :: rs => insertByPriority r (sortByPriority rs)

/-- `check_mx_records_cached(domain)`: serve a fresh cache hit with
`"cached": True`; otherwise invoke the DNS resolver, build the result dict
(sorted records, trailing dots stripped) and cache it on success; on any DNS
exception return an error dict (the three named `dns.resolver` exceptions
surface `type(e).__name__`, a generic exception surfaces `str(e)`) without
caching it.  The stored dicts are never empty, so the source's truthiness test
`if cached:` coincides with the `Option` match. -/
def check_mx_records_cached (resolver : String → DnsOutcome) (now : Nat)
    (domain : String) (st : MxState) : MxData × MxState :=
  let hit := get_cached_mx now domain st
  match hit.1 with
  | some cached => ({ cached with cached := true }, hit.2)
  | none =>
    let st2 : MxState := { hit.2 with dnsCalls := hit.2.dnsCalls + 1 }
    match resolver domain with
    | .answers rs =>
      let mx_records :=
        sortByPriority (rs.map (fun r => ⟨r.1, rstripDot r.2⟩))
      let result : MxData :=
        ⟨domain, true, true, mx_records, mx_records.length, none, false⟩
      (result, cache_mx_records now domain result st2)
    | .noAnswer =>
      (⟨domain, false, false, [], 0, some "NoAnswer", false⟩, st2)
    | .nxdomain =>
      (⟨domain, false, false, [], 0, some "NXDOMAIN", false⟩, st2)
    | .noNameservers =>
      (⟨domain, false, false, [], 0, some "NoNameservers", false⟩, st2)
    | .failure msg =>
      (⟨domain, false, false, [], 0, some msg, false⟩, st2)

/-- The two exception classes distinguished by `verify_email_smtp`'s handlers:
`smtplib.SMTPException` versus any other `Exception`. -/
inductive ExcKind where
  | smtp
  | conn
deriving Repr, DecidableEq

/-- An exception raised by an SMTP dialogue step, carrying `str(e)`. -/
structure Exc where
  kind : ExcKind
  msg : String
deriving Repr, DecidableEq

/-- The remote SMTP peer, as observed through the `smtplib.SMTP` calls the
source makes: each step either returns (`Except.ok` with the value `smtplib`
would return) or raises (`Except.error`).  `rcptTo` may depend on the probed
address; `mailFrom` is always invoked with the fixed sender
`verify@example.com`, so it is a constant. -/
structure SMTPPeer where
  connect : Except Exc Unit
  helo : Except Exc Unit
  mailFrom : Except Exc (Nat × String)
  rcptTo : String → Except Exc (Nat × String)
  quit : Except Exc Unit

/-- Observable side effects of one probe: how many times `server.connect`,
`server.mail`, `server.rcpt` were attempted and how many times the connection
was closed (a successful `server.quit`; the source never calls `close`
elsewhere, and a raising `quit` records no close). -/
structure ProbeTrace where
  connects : Nat
  mails : Nat
  rcpts : Nat
  closes : Nat
deriving Repr, DecidableEq

/-- The empty trace (no SMTP activity). -/
def ProbeTrace.zero : ProbeTrace := ⟨0, 0, 0, 0⟩

/-- The result dict of `verify_email_smtp` (key `exists` is spelled `exists_`;
keys absent from a given branch of the source are `none`). -/
structure VerifyResult where
  email : String
  exists_ : Option Bool
  deliverable : Bool
  catch_all : Bool
  mx_host : Option String
  error : Option String
deriving Repr, DecidableEq

/-- The error text produced by the two exception handlers of
`verify_email_smtp`. -/
def excText (e : Exc) : String :=
  match e.kind with
  | .smtp => "SMTP error: " ++ e.msg
  | .conn => "Connection error: " ++ e.msg

/-- The result dict built by both exception handlers inside the dialogue `try`
of `verify_email_smtp` (lines 183–200 of the source). -/
def verifyExcResult (email mx_host : String) (e : Exc) : VerifyResult :=
  ⟨email, none, false, false, some mx_host, some (excText e)⟩

/-- Python `email.split("@")` on the character list (split at every `'@'`). -/
def splitAtSign : List Char → List Char → List (List Char)
  | [], acc => [acc.reverse]
  | c :: rest, acc =>
    if c = '@' then acc.reverse :: splitAtSign rest []
    else splitAtSign rest (c :: acc)

/-- `email.split("@")[1]`: the text between the first and second `'@'` (or the
end); the caller has checked `'@' ∈ email`, so index 1 exists. -/
def domainOf (email : String) : String :=
  ⟨(splitAtSign email.data []).getD 1 []⟩

/-- `verify_email_smtp(email)` (the `timeout` argument only parameterises the
socket and is absorbed into the peer model).  Returns the result dict, the
updated cache state, and the probe trace.  Mirrors the source line by line:
no-`@` input error; `check_mx_records_cached`; `has_mx` check; primary MX host
(an empty `mx_records` list would raise `IndexError`, caught by the outermost
handler as `Verification failed: ...`); then the
connect/helo/MAIL FROM/RCPT TO dialogue with `quit` before returning on the
non-exception paths, and the two exception handlers. -/
def verify_email_smtp (resolver : String → DnsOutcome) (peer : SMTPPeer)
    (now : Nat) (email : String) (st : MxState) :
    VerifyResult × MxState × ProbeTrace :=
  if '@' ∉ email.data then
    (⟨email, some false, false, false, none, some "Invalid email format"⟩,
      st, ProbeTrace.zero)
  else
    let domain := domainOf email
    let p := check_mx_records_cached resolver now domain st
    if p.1.has_mx = false then
      (⟨email, some false, false, false, none, some "No MX records found"⟩,
        p.2, ProbeTrace.zero)
    else
      match p.1.mx_records with
      | [] =>
        -- `mx_info["mx_records"][0]` raises `IndexError`, reaching the
        -- outermost handler (lines 202–209).
        (⟨email, none, false, false, none,
            some "Verification failed: list index out of range"⟩,
          p.2, ProbeTrace.zero)
      | r0 :: _ =>
        let mx_host := r0.host
        match peer.connect with
        | .error e => (verifyExcResult email mx_host e, p.2, ⟨1, 0, 0, 0⟩)
        | .ok _ =>
          match peer.helo with
          | .error e => (verifyExcResult email mx_host e, p.2, ⟨1, 0, 0, 0⟩)
          | .ok _ =>
            match peer.mailFrom with
            | .error e => (verifyExcResult email mx_host e, p.2, ⟨1, 1, 0, 0⟩)
            | .ok (code, message) =>
              if code ≠ 250 then
                match peer.quit with
                | .error e =>
                  (verifyExcResult email mx_host e, p.2, ⟨1, 1, 0, 0⟩)
                | .ok _ =>
                  (⟨email, some false, false, false, some mx_host,
                      some ("MAIL FROM rejected: " ++ toString code ++ " "
                        ++ message)⟩,
                    p.2, ⟨1, 1, 0, 1⟩)
              else
                match peer.rcptTo email with
                | .error e =>
                  (verifyExcResult email mx_host e, p.2, ⟨1, 1, 1, 0⟩)
                | .ok (code2, message2) =>
                  match peer.quit with
                  | .error e =>
                    (verifyExcResult email mx_host e, p.2, ⟨1, 1, 1, 0⟩)
                  | .ok _ =>
                    if code2 = 250 then
                      (⟨email, some true, true, false, some mx_host, none⟩,
                        p.2, ⟨1, 1, 1, 1⟩)
                    else if code2 = 550 then
                      (⟨email, some false, false, false, some mx_host,
                          some ("Mailbox does not exist: " ++ message2)⟩,
                        p.2, ⟨1, 1, 1, 1⟩)
                    else
                      (⟨email, none, false, false, some mx_host,
                          some ("Unexpected SMTP code: " ++ toString code2
                            ++ " " ++ message2)⟩,
                        p.2, ⟨1, 1, 1, 1⟩)

/-- The result dict of `detect_catch_all`. -/
structure CatchAllResult where
  domain : String
  is_catch_all : Option Bool
  confidence : Nat
  tested_email : Option String
  mx_host : Option String
  error : Option String
deriving Repr, DecidableEq

/-- The result dict of `detect_catch_all`'s exception handler
(`error` is plain `str(e)`). -/
def catchAllExcResult (domain : String) (msg : String) : CatchAllResult :=
  ⟨domain, none, 0, none, none, some msg⟩

/-- `detect_catch_all(domain)`.  `randomLocal` is the 20-character random
local part drawn by the source before any I/O; it is injected as an argument.
Mirrors the source: MX check first (no MX ⇒ `False`/100); inside the `try`,
primary host (empty record list raises `IndexError` caught by the handler),
connect, helo, `MAIL FROM` (whose reply is read but never inspected),
`RCPT TO` on the synthetic address, `quit`, then the 250 branch
(`True`/90) versus any other reply (`False`/85); every exception in the `try`
yields `None`/0 with `str(e)`. -/
def detect_catch_all (resolver : String → DnsOutcome) (peer : SMTPPeer)
    (now : Nat) (randomLocal : String) (domain : String) (st : MxState) :
    CatchAllResult × MxState × ProbeTrace :=
  let test_email := randomLocal ++ "@" ++ domain
  let p := check_mx_records_cached resolver now domain st
  if p.1.has_mx = false then
    (⟨domain, some false, 100, none, none, some "No MX records"⟩,
      p.2, ProbeTrace.zero)
  else
    match p.1.mx_records with
    | [] =>
      (catchAllExcResult domain "list index out of range", p.2, ProbeTrace.zero)
    | r0 :: _ =>
      let mx_host := r0.host
      match peer.connect with
      | .error e => (catchAllExcResult domain e.msg, p.2, ⟨1, 0, 0, 0⟩)
      | .ok _ =>
        match peer.helo with
        | .error e => (catchAllExcResult domain e.msg, p.2, ⟨1, 0, 0, 0⟩)
        | .ok _ =>
          match peer.mailFrom with
          | .error e => (catchAllExcResult domain e.msg, p.2, ⟨1, 1, 0, 0⟩)
          | .ok _ =>
            match peer.rcptTo test_email with
            | .error e => (catchAllExcResult domain e.msg, p.2, ⟨1, 1, 1, 0⟩)
            | .ok (code, _) =>
              match peer.quit with
              | .error e =>
                (catchAllExcResult domain e.msg, p.2, ⟨1, 1, 1, 0⟩)
              | .ok _ =>
                if code = 250 then
                  (⟨domain, some true, 90, some test_email, some mx_host,
                      none⟩, p.2, ⟨1, 1, 1, 1⟩)
                else
                  (⟨domain, some false, 85, some test_email, some mx_host,
                      none⟩, p.2, ⟨1, 1, 1, 1⟩)

/-! ### Concrete fixtures used by counterexamples and witnesses -/

/-- A resolver returning one MX answer (with a trailing root dot). -/
def resolverOne : String → DnsOutcome :=
  fun _ => DnsOutcome.answers [(10, "mx.example.com.")]

/-- A resolver whose every query raises `dns.resolver.NoAnswer`. -/
def resolverNoAnswer : String → DnsOutcome :=
  fun _ => DnsOutcome.noAnswer

/-- The empty starting state (fresh `_mx_cache`, no DNS calls yet). -/
def stEmpty : MxState := ⟨[], 0⟩

/-- A well-behaved peer that accepts the sender and every recipient. -/
def peerAccept : SMTPPeer :=
  ⟨.ok (), .ok (), .ok (250, "Sender OK"), fun _ => .ok (250, "Recipient OK"),
    .ok ()⟩

/-- A peer that answers `550` to every `RCPT TO`. -/
def peerReject550 : SMTPPeer :=
  ⟨.ok (), .ok (), .ok (250, "Sender OK"), fun _ => .ok (550, "User unknown"),
    .ok ()⟩

/-- A peer that answers the temporary-failure code `451` to every `RCPT TO`. -/
def peerTemp451 : SMTPPeer :=
  ⟨.ok (), .ok (), .ok (250, "Sender OK"), fun _ => .ok (451, "Greylisted"),
    .ok ()⟩

/-- A peer that raises `smtplib.SMTPException` during `MAIL FROM`. -/
def peerMailRaises : SMTPPeer :=
  ⟨.ok (), .ok (), .error ⟨.smtp, "server disconnected"⟩,
    fun _ => .ok (250, "OK"), .ok ()⟩

/-- A peer that completes `MAIL FROM`/`RCPT TO` with `250` but raises during
`QUIT`. -/
def peerQuitRaises : SMTPPeer :=
  ⟨.ok (), .ok (), .ok (250, "Sender OK"), fun _ => .ok (250, "Recipient OK"),
    .error ⟨.smtp, "connection unexpectedly closed"⟩⟩

/-- A peer answering `251` (a 2xx code other than 250) to `MAIL FROM`. -/
def peerMail251 : SMTPPeer :=
  ⟨.ok (), .ok (), .ok (251, "User not local"), fun _ => .ok (250, "OK"),
    .ok ()⟩

/-- A peer whose `MAIL FROM` is refused with `550`. -/
def peerMailRefused550 : SMTPPeer :=
  ⟨.ok (), .ok (), .ok (550, "Denied"), fun _ => .ok (250, "OK"), .ok ()⟩

/-- `true` on the four exceptional outcomes of `dns.resolver.resolve`. -/
def isDnsFailure : DnsOutcome → Bool
  | .answers _ => false
  | _ => true

/-- The success dict built by `check_mx_records_cached` on the resolution path:
records mapped to `{"priority": ..., "host": rstrip(".")}` and sorted ascending
by priority. -/
def mxSuccess (d : String) (rs : List (Nat × String)) : MxData :=
  let recs := sortByPriority (rs.map fun r => ⟨r.1, rstripDot r.2⟩)
  ⟨d, true, true, recs, recs.length, none, false⟩

/-- The peer raises exception `e` at some step of the `detect_catch_all`
dialogue against `addr` (every earlier step having succeeded). -/
def detectRaisesWith (peer : SMTPPeer) (addr : String) (e : Exc) : Prop :=
  peer.connect = Except.error e
  ∨ (peer.connect = Except.ok () ∧ peer.helo = Except.error e)
  ∨ (peer.connect = Except.ok () ∧ peer.helo = Except.ok ()
      ∧ peer.mailFrom = Except.error e)
  ∨ (peer.connect = Except.ok () ∧ peer.helo = Except.ok ()
      ∧ (∃ cm, peer.mailFrom = Except.ok cm)
      ∧ peer.rcptTo addr = Except.error e)
  ∨ (peer.connect = Except.ok () ∧ peer.helo = Except.ok ()
      ∧ (∃ cm, peer.mailFrom = Except.ok cm)
      ∧ (∃ cm, peer.rcptTo addr = Except.ok cm)
      ∧ peer.quit = Except.error e)

/-- Every dialogue step `verify_email_smtp` executes succeeds when probing
`addr`: `HELO` and `MAIL FROM` return, `RCPT TO` returns whenever it is
reached (that is, when `MAIL FROM` answered `250`), and `QUIT` returns.
Unlike `peerAllOk`, this places no demand on `RCPT TO` along the
`MAIL FROM`-rejection exit, where the source never issues it. -/
def verifyDialogueClean (peer : SMTPPeer) (addr : String) : Prop :=
  peer.helo = Except.ok ()
  ∧ (∃ cm ms, peer.mailFrom = Except.ok (cm, ms)
      ∧ (cm = 250 → ∃ cr mr, peer.rcptTo addr = Except.ok (cr, mr)))
  ∧ peer.quit = Except.ok ()

/-- The peer raises exception `e` at some step the `verify_email_smtp`
dialogue against `addr` executes (every earlier executed step having
succeeded).  `RCPT TO` is executed only after a `250` `MAIL FROM`; `QUIT` is
executed both on the rejection exit (fourth disjunct) and after `RCPT TO`
(sixth disjunct). -/
def verifyRaisesWith (peer : SMTPPeer) (addr : String) (e : Exc) : Prop :=
  peer.connect = Except.error e
  ∨ (peer.connect = Except.ok () ∧ peer.helo = Except.error e)
  ∨ (peer.connect = Except.ok () ∧ peer.helo = Except.ok ()
      ∧ peer.mailFrom = Except.error e)
  ∨ (peer.connect = Except.ok () ∧ peer.helo = Except.ok ()
      ∧ (∃ cm ms, peer.mailFrom = Except.ok (cm, ms) ∧ cm ≠ 250)
      ∧ peer.quit = Except.error e)
  ∨ (peer.connect = Except.ok () ∧ peer.helo = Except.ok ()
      ∧ (∃ ms, peer.mailFrom = Except.ok (250, ms))
      ∧ peer.rcptTo addr = Except.error e)
  ∨ (peer.connect = Except.ok () ∧ peer.helo = Except.ok ()
      ∧ (∃ ms, peer.mailFrom = Except.ok (250, ms))
      ∧ (∃ cr mr, peer.rcptTo addr = Except.ok (cr, mr))
      ∧ peer.quit = Except.error e)

/-- Every dialogue step of the peer succeeds when probing `addr`. -/
def peerAllOk (peer : SMTPPeer) (addr : String) : Prop :=
  peer.helo = Except.ok () ∧ (∃ cm, peer.mailFrom = Except.ok cm)
    ∧ (∃ cm, peer.rcptTo addr = Except.ok cm) ∧ peer.quit = Except.ok ()

/-! ### Helper lemmas -/

/-- Looking up just-inserted key returns the inserted value. -/
theorem cacheFind_cacheInsert (c : List (String × MxData × Nat)) (k : String)
    (v : MxData × Nat) : cacheFind (cacheInsert c k v) k = some v := by
  simp [cacheInsert, cacheFind]

/-- Membership in an insertion-sort insert. -/
theorem mem_insertByPriority (a r : MxRecord) (l : List MxRecord) :
    a ∈ insertByPriority r l ↔ a = r ∨ a ∈ l := by
  induction l with
  | nil => simp [insertByPriority]
  | cons x xs ih =>
    rw [insertByPriority]
    by_cases hlt : r.priority < x.priority
    · simp only [if_pos hlt, List.mem_cons]
    · simp only [if_neg hlt, List.mem_cons, ih]
      tauto

/-- Inserting into an ascending list keeps it ascending. -/
theorem pairwise_insertByPriority (r : MxRecord) (l : List MxRecord)
    (h : l.Pairwise (fun a b => a.priority ≤ b.priority)) :
    (insertByPriority r l).Pairwise (fun a b => a.priority ≤ b.priority) := by
  induction l with
  | nil => simp [insertByPriority]
  | cons x xs ih =>
    rw [insertByPriority]
    rw [List.pairwise_cons] at h
    by_cases hlt : r.priority < x.priority
    · rw [if_pos hlt, List.pairwise_cons]
      refine ⟨?_, List.pairwise_cons.mpr h⟩
      intro b hb
      rcases List.mem_cons.mp hb with hbx | hbxs
      · exact hbx ▸ Nat.le_of_lt hlt
      · exact Nat.le_trans (Nat.le_of_lt hlt) (h.1 b hbxs)
    · rw [if_neg hlt, List.pairwise_cons]
      refine ⟨?_, ih h.2⟩
      intro b hb
      rcases (mem_insertByPriority b r xs).mp hb with hbr | hbxs
      · exact hbr ▸ Nat.le_of_not_lt hlt
      · exact h.1 b hbxs

/-- The modelled Python sort produces a list ascending in `priority`. -/
theorem pairwise_sortByPriority (l : List MxRecord) :
    (sortByPriority l).Pairwise (fun a b => a.priority ≤ b.priority) := by
  induction l with
  | nil => simp [sortByPriority]
  | cons r rs ih => exact pairwise_insertByPriority r _ ih

/-- The modelled Python sort preserves membership. -/
theorem mem_sortByPriority (a : MxRecord) (l : List MxRecord) :
    a ∈ sortByPriority l ↔ a ∈ l := by
  induction l with
  | nil => simp [sortByPriority]
  | cons r rs ih =>
    rw [sortByPriority, mem_insertByPriority, ih, List.mem_cons]

/-- The head surviving `dropWhile` fails the predicate. -/
theorem head_dropWhile_not_dot (l : List Char) (c : Char)
    (h : (l.dropWhile (fun c => c = '.')).head? = some c) : c ≠ '.' := by
  induction l with
  | nil => simp [List.dropWhile] at h
  | cons x xs ih =>
    by_cases hx : x = '.'
    · rw [List.dropWhile_cons_of_pos (by simp [hx])] at h
      exact ih h
    · rw [List.dropWhile_cons_of_neg (by simp [hx]), List.head?_cons] at h
      injection h with h'
      subst h'
      exact hx

/-- `rstrip(".")` leaves no trailing dot. -/
theorem rstripDot_no_trailing_dot (s : String) :
    (rstripDot s).data.getLast? ≠ some '.' := by
  intro h
  rw [rstripDot] at h
  rw [List.getLast?_reverse] at h
  exact head_dropWhile_not_dot _ _ h rfl

/-- Basic-latin case folding is idempotent at the character level. -/
theorem char_toLower_idem (c : Char) : c.toLower.toLower = c.toLower := by
  unfold Char.toLower
  by_cases h : c.toNat ≥ 65 ∧ c.toNat ≤ 90
  · rw [if_pos h]
    obtain ⟨n, hn⟩ : ∃ n, c.toNat = n := ⟨c.toNat, rfl⟩
    rw [hn] at h ⊢
    obtain ⟨h1, h2⟩ := h
    interval_cases n <;> decide
  · rw [if_neg h, if_neg h]

/-- Case folding a string is idempotent. -/
theorem lowerStr_idem (s : String) : lowerStr (lowerStr s) = lowerStr s := by
  simp only [lowerStr, List.map_map]
  congr 1
  induction s.data with
  | nil => rfl
  | cons c cs ih => simp [Function.comp, char_toLower_idem, ih]

/-- On a cache miss with a successful resolution, `check_mx_records_cached`
returns the success dict and stores it with the current timestamp. -/
theorem check_mx_miss_success (resolver : String → DnsOutcome) (d : String)
    (now : Nat) (st : MxState) (rs : List (Nat × String))
    (hmiss : cacheFind st.cache (get_mx_cache_key d) = none)
    (hres : resolver d = DnsOutcome.answers rs) :
    check_mx_records_cached resolver now d st
      = (mxSuccess d rs,
         cache_mx_records now d (mxSuccess d rs)
           { st with dnsCalls := st.dnsCalls + 1 }) := by
  simp only [check_mx_records_cached, get_cached_mx, hmiss, hres, mxSuccess]

/-- On a fresh cache hit, `check_mx_records_cached` returns the stored dict
with `"cached": True` and leaves the state untouched. -/
theorem check_mx_hit (resolver : String → DnsOutcome) (d : String) (now : Nat)
    (st : MxState) (data : MxData) (ts : Nat)
    (hfind : cacheFind st.cache (get_mx_cache_key d) = some (data, ts))
    (httl : now - ts < MX_CACHE_TTL) :
    check_mx_records_cached resolver now d st
      = ({ data with cached := true }, st) := by
  simp only [check_mx_records_cached, get_cached_mx, hfind, httl, if_pos]

/-! ### Claim C1 -/

/-- C1 counterexample: a probe that successfully opens its connection but whose
peer raises during `MAIL FROM` returns with the connection never closed
(`closes = 0`), refuting "the connection is closed exactly once ... also when
the peer raises an exception mid-dialogue": the source has no `finally` block
and neither exception handler closes the connection. -/
theorem c1_connection_not_closed_on_exception :
    peerMailRaises.connect = Except.ok ()
    ∧ (verify_email_smtp resolverOne peerMailRaises 0 "user@example.com"
        stEmpty).2.2.connects = 1
    ∧ (verify_email_smtp resolverOne peerMailRaises 0 "user@example.com"
        stEmpty).2.2.closes = 0 :=
  ⟨rfl, rfl, rfl⟩

/-- C1 (amended): for every SMTP probe performed by `verify_email_smtp` or
`detect_catch_all`, the connection is closed at most once; it is closed
exactly once on every exit path on which no executed dialogue step raises
(success and rejection); and whenever the peer raises at any executed
dialogue step, the call returns without closing the connection (zero
closes). -/
theorem c1_connection_closed_at_most_once_and_once_when_clean :
    (∀ (resolver : String → DnsOutcome) (peer : SMTPPeer) (now : Nat)
        (email : String) (st : MxState),
      (verify_email_smtp resolver peer now email st).2.2.closes ≤ 1)
    ∧ (∀ (resolver : String → DnsOutcome) (peer : SMTPPeer) (now : Nat)
        (rl d : String) (st : MxState),
      (detect_catch_all resolver peer now rl d st).2.2.closes ≤ 1)
    ∧ (∀ (resolver : String → DnsOutcome) (peer : SMTPPeer) (now : Nat)
        (email : String) (st : MxState) (r0 : MxRecord) (rest : List MxRecord),
        '@' ∈ email.data →
        (check_mx_records_cached resolver now (domainOf email) st).1.has_mx
          = true →
        (check_mx_records_cached resolver now (domainOf email) st).1.mx_records
          = r0 :: rest →
        peer.connect = Except.ok () → verifyDialogueClean peer email →
        (verify_email_smtp resolver peer now email st).2.2.closes = 1)
    ∧ (∀ (resolver : String → DnsOutcome) (peer : SMTPPeer) (now : Nat)
        (rl d : String) (st : MxState) (r0 : MxRecord) (rest : List MxRecord),
        (check_mx_records_cached resolver now d st).1.has_mx = true →
        (check_mx_records_cached resolver now d st).1.mx_records = r0 :: rest →
        peer.connect = Except.ok () → peerAllOk peer (rl ++ "@" ++ d) →
        (detect_catch_all resolver peer now rl d st).2.2.closes = 1)
    ∧ (∀ (resolver : String → DnsOutcome) (peer : SMTPPeer) (now : Nat)
        (email : String) (st : MxState) (r0 : MxRecord)
        (rest : List MxRecord) (e : Exc),
        '@' ∈ email.data →
        (check_mx_records_cached resolver now (domainOf email) st).1.has_mx
          = true →
        (check_mx_records_cached resolver now (domainOf email) st).1.mx_records
          = r0 :: rest →
        verifyRaisesWith peer email e →
        (verify_email_smtp resolver peer now email st).2.2.closes = 0)
    ∧ (∀ (resolver : String → DnsOutcome) (peer : SMTPPeer) (now : Nat)
        (rl d : String) (st : MxState) (r0 : MxRecord)
        (rest : List MxRecord) (e : Exc),
        (check_mx_records_cached resolver now d st).1.has_mx = true →
        (check_mx_records_cached resolver now d st).1.mx_records = r0 :: rest →
        detectRaisesWith peer (rl ++ "@" ++ d) e →
        (detect_catch_all resolver peer now rl d st).2.2.closes = 0) := by
  refine ⟨?_, ?_, ?_, ?_, ?_, ?_⟩
  · intro resolver peer now email st
    simp only [verify_email_smtp]
    repeat' split
    all_goals simp [ProbeTrace.zero, verifyExcResult]
  · intro resolver peer now rl d st
    simp only [detect_catch_all]
    repeat' split
    all_goals simp [ProbeTrace.zero, verifyExcResult]
  · intro resolver peer now email st r0 rest hat hmx hrec hc hclean
    obtain ⟨hh, ⟨cm, ms, hm, hrc⟩, hq⟩ := hclean
    have hat' : ¬('@' ∉ email.data) := not_not_intro hat
    by_cases h1 : cm = 250
    · subst h1
      obtain ⟨cr, mr, hr⟩ := hrc rfl
      simp only [verify_email_smtp, if_neg hat', hmx, hrec, hc, hh, hm, hr, hq]
      by_cases h2 : cr = 250 <;> by_cases h3 : cr = 550 <;> simp [h2, h3]
    · simp only [verify_email_smtp, if_neg hat', hmx, hrec, hc, hh, hm, hq]
      simp [h1]
  · intro resolver peer now rl d st r0 rest hmx hrec hc hall
    obtain ⟨hh, ⟨⟨cm, ms⟩, hm⟩, ⟨⟨cr, mr⟩, hr⟩, hq⟩ := hall
    simp only [detect_catch_all, hmx, hrec, hc, hh, hm, hr, hq]
    by_cases h2 : cr = 250 <;> simp [h2]
  · intro resolver peer now email st r0 rest e hat hmx hrec hvr
    have hat' : ¬('@' ∉ email.data) := not_not_intro hat
    rcases hvr with hce | ⟨hc, hhe⟩ | ⟨hc, hh, hme⟩
      | ⟨hc, hh, ⟨cm, ms, hm, hcm⟩, hqe⟩
      | ⟨hc, hh, ⟨ms, hm⟩, hre⟩
      | ⟨hc, hh, ⟨ms, hm⟩, ⟨cr, mr, hr⟩, hqe⟩
    · simp [verify_email_smtp, if_neg hat', hmx, hrec, hce, verifyExcResult]
    · simp [verify_email_smtp, if_neg hat', hmx, hrec, hc, hhe,
        verifyExcResult]
    · simp [verify_email_smtp, if_neg hat', hmx, hrec, hc, hh, hme,
        verifyExcResult]
    · simp [verify_email_smtp, if_neg hat', hmx, hrec, hc, hh, hm, hqe, hcm,
        verifyExcResult]
    · simp [verify_email_smtp, if_neg hat', hmx, hrec, hc, hh, hm, hre,
        verifyExcResult]
    · simp [verify_email_smtp, if_neg hat', hmx, hrec, hc, hh, hm, hr, hqe,
        verifyExcResult]
  · intro resolver peer now rl d st r0 rest e hmx hrec hdr
    rcases hdr with hce | ⟨hc, hhe⟩ | ⟨hc, hh, hme⟩
      | ⟨hc, hh, ⟨cm, hm⟩, hre⟩ | ⟨hc, hh, ⟨cm, hm⟩, ⟨cr, hr⟩, hqe⟩
    · simp [detect_catch_all, hmx, hrec, hce, catchAllExcResult]
    · simp [detect_catch_all, hmx, hrec, hc, hhe, catchAllExcResult]
    · simp [detect_catch_all, hmx, hrec, hc, hh, hme, catchAllExcResult]
    · simp [detect_catch_all, hmx, hrec, hc, hh, hm, hre, catchAllExcResult]
    · obtain ⟨c2, m2⟩ := cr
      simp [detect_catch_all, hmx, hrec, hc, hh, hm, hr, hqe,
        catchAllExcResult]

/-- C1 witness: a clean dialogue at concrete inputs closes exactly once, and
a concrete run whose peer raises at `QUIT` returns with zero closes. -/
theorem c1_connection_closed_witness :
    ((verify_email_smtp resolverOne peerAccept 0 "user@example.com"
        stEmpty).2.2.closes = 1)
    ∧ ((detect_catch_all resolverOne peerQuitRaises 0 "q9z8x7c6v5b4n3m2l1k0"
        "example.com" stEmpty).2.2.closes = 0) :=
  ⟨c1_connection_closed_at_most_once_and_once_when_clean.2.2.1 resolverOne
      peerAccept 0 "user@example.com" stEmpty ⟨10, "mx.example.com"⟩ []
      (by decide) rfl rfl rfl
      ⟨rfl, ⟨250, "Sender OK", rfl, fun _ => ⟨250, "Recipient OK", rfl⟩⟩, rfl⟩,
   c1_connection_closed_at_most_once_and_once_when_clean.2.2.2.2.2 resolverOne
      peerQuitRaises 0 "q9z8x7c6v5b4n3m2l1k0" "example.com" stEmpty
      ⟨10, "mx.example.com"⟩ [] ⟨.smtp, "connection unexpectedly closed"⟩
      rfl rfl
      (Or.inr (Or.inr (Or.inr (Or.inr ⟨rfl, rfl, ⟨(250, "Sender OK"), rfl⟩,
        ⟨(250, "Recipient OK"), rfl⟩, rfl⟩))))⟩

/-! ### Claim C2 -/

/-- C2 counterexample: a call that reaches `RCPT TO` and receives `250` but
whose subsequent `QUIT` raises is classified `exists = None` instead of
`true` — the response code alone does not fully determine the classification,
because `server.quit()` is invoked inside the `try` before the code is
inspected. -/
theorem c2_rcpt_250_overridden_by_quit_failure :
    peerQuitRaises.rcptTo "user@example.com" = Except.ok (250, "Recipient OK")
    ∧ (verify_email_smtp resolverOne peerQuitRaises 0 "user@example.com"
        stEmpty).2.2.rcpts = 1
    ∧ (verify_email_smtp resolverOne peerQuitRaises 0 "user@example.com"
        stEmpty).1.exists_ = none
    ∧ (verify_email_smtp resolverOne peerQuitRaises 0 "user@example.com"
        stEmpty).1.deliverable = false :=
  ⟨rfl, rfl, rfl, rfl⟩

/-- C2 (amended): for every `verify_email_smtp` call that reaches the
`RCPT TO` step and whose closing `QUIT` does not raise, the response code
fully determines the classification: `250` ⇒ `exists = true`,
`deliverable = true`; `550` ⇒ `exists = false`, `deliverable = false`; any
other code (such as `451`) ⇒ `exists = None`, `deliverable = false`, with the
numeric code and the server text preserved in the error field. -/
theorem c2_rcpt_code_determines_classification (resolver : String → DnsOutcome)
    (peer : SMTPPeer) (now : Nat) (email : String) (st : MxState)
    (r0 : MxRecord) (rest : List MxRecord) (s0 m : String) (c : Nat)
    (hat : '@' ∈ email.data)
    (hmx : (check_mx_records_cached resolver now (domainOf email) st).1.has_mx
      = true)
    (hrec : (check_mx_records_cached resolver now (domainOf email)
        st).1.mx_records = r0 :: rest)
    (hc : peer.connect = Except.ok ()) (hh : peer.helo = Except.ok ())
    (hm : peer.mailFrom = Except.ok (250, s0))
    (hr : peer.rcptTo email = Except.ok (c, m))
    (hq : peer.quit = Except.ok ()) :
    ((verify_email_smtp resolver peer now email st).2.2.rcpts = 1)
    ∧ (c = 250 → (verify_email_smtp resolver peer now email st).1
        = ⟨email, some true, true, false, some r0.host, none⟩)
    ∧ (c = 550 → (verify_email_smtp resolver peer now email st).1
        = ⟨email, some false, false, false, some r0.host,
            some ("Mailbox does not exist: " ++ m)⟩)
    ∧ (c ≠ 250 → c ≠ 550 → (verify_email_smtp resolver peer now email st).1
        = ⟨email, none, false, false, some r0.host,
            some ("Unexpected SMTP code: " ++ toString c ++ " " ++ m)⟩) := by
  have hat' : ¬('@' ∉ email.data) := not_not_intro hat
  simp only [verify_email_smtp, if_neg hat', hmx, hrec, hc, hh, hm, hr, hq]
  simp only [Bool.true_eq_false, if_false, ne_eq, not_true_eq_false, if_neg,
    ite_false, ite_true, not_false_eq_true]
  by_cases h1 : c = 250 <;> by_cases h2 : c = 550 <;> simp [h1, h2]

/-- C2 witness: a mocked peer answering `451` to `RCPT TO` yields
`exists = None` with the code and text preserved. -/
theorem c2_rcpt_code_witness :
    (verify_email_smtp resolverOne peerTemp451 0 "user@example.com" stEmpty).1
      = ⟨"user@example.com", none, false, false, some "mx.example.com",
          some "Unexpected SMTP code: 451 Greylisted"⟩ :=
  (c2_rcpt_code_determines_classification resolverOne peerTemp451 0
      "user@example.com" stEmpty ⟨10, "mx.example.com"⟩ [] "Sender OK"
      "Greylisted" 451 (by decide) rfl rfl rfl rfl rfl rfl rfl).2.2.2
    (by decide) (by decide)

/-! ### Claim C3 -/

/-- C3: for every domain whose first resolution succeeded and was stored, a
second `check_mx_records_cached` call within 3600 seconds returns the stored
result with `cached = true` and leaves the state (in particular the DNS call
counter) untouched — zero resolver calls. -/
theorem c3_second_query_served_from_cache (resolver : String → DnsOutcome)
    (d : String) (st0 : MxState) (t1 t2 : Nat) (rs : List (Nat × String))
    (hmiss : cacheFind st0.cache (get_mx_cache_key d) = none)
    (hres : resolver d = DnsOutcome.answers rs)
    (horder : t1 ≤ t2) (httl : t2 - t1 < 3600) :
    (check_mx_records_cached resolver t2 d
        (check_mx_records_cached resolver t1 d st0).2).1
      = { (check_mx_records_cached resolver t1 d st0).1 with cached := true }
    ∧ (check_mx_records_cached resolver t2 d
          (check_mx_records_cached resolver t1 d st0).2).2
        = (check_mx_records_cached resolver t1 d st0).2 := by
  rw [check_mx_miss_success resolver d t1 st0 rs hmiss hres]
  rw [check_mx_hit resolver d t2 _ (mxSuccess d rs) t1
    (by rw [cache_mx_records]; exact cacheFind_cacheInsert _ _ _) httl]
  exact ⟨rfl, rfl⟩

/-- C3 witness: a concrete second query 1800 seconds after the first is served
from the cache with the state unchanged. -/
theorem c3_second_query_witness :
    (check_mx_records_cached resolverOne 1800 "example.com"
        (check_mx_records_cached resolverOne 0 "example.com" stEmpty).2).1
      = { (check_mx_records_cached resolverOne 0 "example.com" stEmpty).1 with
          cached := true }
    ∧ (check_mx_records_cached resolverOne 1800 "example.com"
          (check_mx_records_cached resolverOne 0 "example.com" stEmpty).2).2
        = (check_mx_records_cached resolverOne 0 "example.com" stEmpty).2 :=
  c3_second_query_served_from_cache resolverOne "example.com" stEmpty 0 1800
    [(10, "mx.example.com.")] rfl rfl (by decide) (by decide)

/-! ### Claim C4 -/

/-- C4 counterexample: a completed but failed resolution (resolver raises
`NoAnswer`; the DNS counter shows the resolution ran) leaves the cache empty —
no entry is created, refuting "a failed resolution is cached exactly like a
successful one": the source only calls `cache_mx_records` on the success
branch. -/
theorem c4_failed_resolution_leaves_cache_empty :
    (check_mx_records_cached resolverNoAnswer 0 "example.com"
        stEmpty).2.dnsCalls = 1
    ∧ (check_mx_records_cached resolverNoAnswer 0 "example.com" stEmpty).1.error
        = some "NoAnswer"
    ∧ (check_mx_records_cached resolverNoAnswer 0 "example.com" stEmpty).2.cache
        = [] :=
  ⟨rfl, rfl, rfl⟩

/-- C4 (amended): on a cache miss, `check_mx_records_cached` creates a cache
entry keyed by the case-folded domain with the current timestamp for a
successful resolution only; a failed resolution is returned but leaves the
cache unchanged. -/
theorem c4_only_successful_resolution_cached (resolver : String → DnsOutcome)
    (d : String) (now : Nat) (st : MxState) (rs : List (Nat × String))
    (hmiss : cacheFind st.cache (get_mx_cache_key d) = none) :
    (resolver d = DnsOutcome.answers rs →
      cacheFind (check_mx_records_cached resolver now d st).2.cache
          (get_mx_cache_key d)
        = some ((check_mx_records_cached resolver now d st).1, now))
    ∧ (isDnsFailure (resolver d) = true →
        (check_mx_records_cached resolver now d st).2.cache = st.cache) := by
  constructor
  · intro hres
    rw [check_mx_miss_success resolver d now st rs hmiss hres,
      cache_mx_records]
    exact cacheFind_cacheInsert _ _ _
  · intro hfail
    rcases hro : resolver d with rs' | _ | _ | _ | msg
    · rw [hro] at hfail; simp [isDnsFailure] at hfail
    all_goals simp only [check_mx_records_cached, get_cached_mx, hmiss, hro]

/-- C4 witness: a concrete successful resolution at time 7 is stored under the
case-folded key with timestamp 7. -/
theorem c4_only_successful_witness :
    cacheFind (check_mx_records_cached resolverOne 7 "example.com"
        stEmpty).2.cache (get_mx_cache_key "example.com")
      = some ((check_mx_records_cached resolverOne 7 "example.com" stEmpty).1,
          7) :=
  (c4_only_successful_resolution_cached resolverOne "example.com" 7 stEmpty
      [(10, "mx.example.com.")] rfl).1 rfl

/-! ### Claim C5 -/

/-- C5 counterexample: a `MAIL FROM` response with the 2xx code `251` aborts
the dialogue (no `RCPT TO` issued) and is reported as a rejection, refuting
"for every 2xx MAIL FROM response the dialogue proceeds to RCPT TO": the
source tests `code != 250`, not non-2xx. -/
theorem c5_mail_from_251_aborts :
    peerMail251.mailFrom = Except.ok (251, "User not local")
    ∧ (verify_email_smtp resolverOne peerMail251 0 "user@example.com"
        stEmpty).2.2.mails = 1
    ∧ (verify_email_smtp resolverOne peerMail251 0 "user@example.com"
        stEmpty).2.2.rcpts = 0
    ∧ (verify_email_smtp resolverOne peerMail251 0 "user@example.com"
        stEmpty).1.error = some "MAIL FROM rejected: 251 User not local" :=
  ⟨rfl, rfl, rfl, rfl⟩

/-- C5 (amended): for every `MAIL FROM` response with a code other than `250`
— and only for those — `verify_email_smtp` (with a successful closing `QUIT`)
aborts without issuing `RCPT TO`, classifies the address as not deliverable
and preserves the literal server code and text in the error field; exactly the
`250` responses proceed to `RCPT TO`. -/
theorem c5_mail_from_non_250_aborts (resolver : String → DnsOutcome)
    (peer : SMTPPeer) (now : Nat) (email : String) (st : MxState)
    (r0 : MxRecord) (rest : List MxRecord) (s0 : String) (c : Nat)
    (hat : '@' ∈ email.data)
    (hmx : (check_mx_records_cached resolver now (domainOf email) st).1.has_mx
      = true)
    (hrec : (check_mx_records_cached resolver now (domainOf email)
        st).1.mx_records = r0 :: rest)
    (hc : peer.connect = Except.ok ()) (hh : peer.helo = Except.ok ())
    (hm : peer.mailFrom = Except.ok (c, s0))
    (hq : peer.quit = Except.ok ()) :
    ((verify_email_smtp resolver peer now email st).2.2.mails = 1)
    ∧ (c ≠ 250 →
        (verify_email_smtp resolver peer now email st).2.2.rcpts = 0
        ∧ (verify_email_smtp resolver peer now email st).1
          = ⟨email, some false, false, false, some r0.host,
              some ("MAIL FROM rejected: " ++ toString c ++ " " ++ s0)⟩)
    ∧ (c = 250 →
        (verify_email_smtp resolver peer now email st).2.2.rcpts = 1) := by
  have hat' : ¬('@' ∉ email.data) := not_not_intro hat
  simp only [verify_email_smtp, if_neg hat', hmx, hrec, hc, hh, hm, hq]
  by_cases h1 : c = 250
  · subst h1
    simp only [ne_eq, not_true_eq_false, if_false, ite_false, reduceIte]
    rcases hrr : peer.rcptTo email with e | ⟨c2, m2⟩ <;> simp only [hrr]
    · exact ⟨rfl, fun h => h.elim, fun _ => rfl⟩
    · constructor
      · by_cases h2 : c2 = 250 <;> by_cases h3 : c2 = 550 <;> simp [h2, h3]
      constructor
      · intro h; exact h.elim
      · intro _
        by_cases h2 : c2 = 250 <;> by_cases h3 : c2 = 550 <;> simp [h2, h3]
  · simp [h1]

/-- C5 witness: a concrete `550` answer to `MAIL FROM` aborts before
`RCPT TO` with the literal code and text preserved. -/
theorem c5_mail_from_witness :
    (verify_email_smtp resolverOne peerMailRefused550 0 "user@example.com"
        stEmpty).2.2.rcpts = 0
    ∧ (verify_email_smtp resolverOne peerMailRefused550 0 "user@example.com"
        stEmpty).1
      = ⟨"user@example.com", some false, false, false, some "mx.example.com",
          some "MAIL FROM rejected: 550 Denied"⟩ :=
  (c5_mail_from_non_250_aborts resolverOne peerMailRefused550 0
      "user@example.com" stEmpty ⟨10, "mx.example.com"⟩ [] "Denied" 550
      (by decide) rfl rfl rfl rfl rfl rfl).2.1 (by decide)

/-! ### Claim C6 -/

/-- C6 counterexample: a peer that accepts `RCPT TO` on the random address but
raises during the closing `QUIT` yields `is_catch_all = None` with
`confidence = 0`, not `true`/90, refuting the unconditional "if RCPT TO on the
random address is accepted, is_catch_all = true with confidence = 90":
`server.quit()` runs inside the `try` before the code is inspected. -/
theorem c6_accepted_rcpt_overridden_by_quit_failure :
    peerQuitRaises.rcptTo "x7k2m9q4w1z8p3r6t5y0@example.com"
      = Except.ok (250, "Recipient OK")
    ∧ (detect_catch_all resolverOne peerQuitRaises 0 "x7k2m9q4w1z8p3r6t5y0"
        "example.com" stEmpty).1.is_catch_all = none
    ∧ (detect_catch_all resolverOne peerQuitRaises 0 "x7k2m9q4w1z8p3r6t5y0"
        "example.com" stEmpty).1.confidence = 0 :=
  ⟨rfl, rfl, rfl⟩

/-- C6 (amended): `detect_catch_all` returns exactly one of four outcomes —
no MX records ⇒ `false`/100; `RCPT TO` accepted and the session closed cleanly
⇒ `true`/90; `RCPT TO` answered with any other code and the session closed
cleanly ⇒ `false`/85; transport/protocol failure at any dialogue step
(including the closing `QUIT`) ⇒ `None`/0. -/
theorem c6_catch_all_outcomes (resolver : String → DnsOutcome)
    (peer : SMTPPeer) (now : Nat) (rl d : String) (st : MxState) :
    (((detect_catch_all resolver peer now rl d st).1.is_catch_all,
        (detect_catch_all resolver peer now rl d st).1.confidence)
        = (some false, 100)
      ∨ ((detect_catch_all resolver peer now rl d st).1.is_catch_all,
          (detect_catch_all resolver peer now rl d st).1.confidence)
        = (some true, 90)
      ∨ ((detect_catch_all resolver peer now rl d st).1.is_catch_all,
          (detect_catch_all resolver peer now rl d st).1.confidence)
        = (some false, 85)
      ∨ ((detect_catch_all resolver peer now rl d st).1.is_catch_all,
          (detect_catch_all resolver peer now rl d st).1.confidence)
        = (none, 0))
    ∧ ((check_mx_records_cached resolver now d st).1.has_mx = false →
        (detect_catch_all resolver peer now rl d st).1
          = ⟨d, some false, 100, none, none, some "No MX records"⟩)
    ∧ (∀ (r0 : MxRecord) (rest : List MxRecord) (c : Nat) (msg : String),
        (check_mx_records_cached resolver now d st).1.has_mx = true →
        (check_mx_records_cached resolver now d st).1.mx_records = r0 :: rest →
        peer.connect = Except.ok () → peer.helo = Except.ok () →
        (∃ cm, peer.mailFrom = Except.ok cm) →
        peer.rcptTo (rl ++ "@" ++ d) = Except.ok (c, msg) →
        peer.quit = Except.ok () →
        (c = 250 →
          (detect_catch_all resolver peer now rl d st).1
            = ⟨d, some true, 90, some (rl ++ "@" ++ d), some r0.host, none⟩)
        ∧ (c ≠ 250 →
          (detect_catch_all resolver peer now rl d st).1
            = ⟨d, some false, 85, some (rl ++ "@" ++ d), some r0.host,
                none⟩))
    ∧ (∀ (r0 : MxRecord) (rest : List MxRecord) (e : Exc),
        (check_mx_records_cached resolver now d st).1.has_mx = true →
        (check_mx_records_cached resolver now d st).1.mx_records = r0 :: rest →
        detectRaisesWith peer (rl ++ "@" ++ d) e →
        (detect_catch_all resolver peer now rl d st).1
          = catchAllExcResult d e.msg) := by
  refine ⟨?_, ?_, ?_, ?_⟩
  · simp only [detect_catch_all]
    repeat' split
    all_goals simp [catchAllExcResult]
  · intro hmx
    simp only [detect_catch_all, hmx]
    rfl
  · intro r0 rest c msg hmx hrec hc hh ⟨⟨cm, ms⟩, hm⟩ hr hq
    simp only [detect_catch_all, hmx, hrec, hc, hh, hm, hr, hq]
    by_cases h1 : c = 250 <;> simp [h1]
  · intro r0 rest e hmx hrec hdr
    rcases hdr with hce | ⟨hc, hhe⟩ | ⟨hc, hh, hme⟩
      | ⟨hc, hh, ⟨cm, hm⟩, hre⟩ | ⟨hc, hh, ⟨cm, hm⟩, ⟨cr, hr⟩, hqe⟩
    · simp [detect_catch_all, hmx, hrec, hce]
    · simp [detect_catch_all, hmx, hrec, hc, hhe]
    · simp [detect_catch_all, hmx, hrec, hc, hh, hme]
    · simp [detect_catch_all, hmx, hrec, hc, hh, hm, hre]
    · obtain ⟨c2, m2⟩ := cr
      simp [detect_catch_all, hmx, hrec, hc, hh, hm, hr, hqe]

/-- C6 witness: a peer accepting every `RCPT TO` yields `true`/90 with the
synthetic address and MX host reported. -/
theorem c6_catch_all_witness :
    (detect_catch_all resolverOne peerAccept 0 "x7k2m9q4w1z8p3r6t5y0"
        "example.com" stEmpty).1
      = ⟨"example.com", some true, 90, some "x7k2m9q4w1z8p3r6t5y0@example.com",
          some "mx.example.com", none⟩ :=
  ((c6_catch_all_outcomes resolverOne peerAccept 0 "x7k2m9q4w1z8p3r6t5y0"
      "example.com" stEmpty).2.2.1 ⟨10, "mx.example.com"⟩ [] 250
      "Recipient OK" rfl rfl rfl rfl ⟨(250, "Sender OK"), rfl⟩ rfl rfl).1 rfl

/-! ### Claim C7 -/

/-- C7: for every input string with no `'@'`, `verify_email_smtp` returns the
input-error result immediately, with the cache state untouched and an empty
probe trace — zero DNS lookups and zero SMTP connections. -/
theorem c7_no_at_sign_immediate_error (resolver : String → DnsOutcome)
    (peer : SMTPPeer) (now : Nat) (email : String) (st : MxState)
    (h : '@' ∉ email.data) :
    verify_email_smtp resolver peer now email st
      = (⟨email, some false, false, false, none, some "Invalid email format"⟩,
          st, ProbeTrace.zero) := by
  rw [verify_email_smtp, if_pos h]

/-- C7 witness: the spec's own example input `"no-at-sign"`. -/
theorem c7_no_at_sign_witness :
    ('@' ∉ "no-at-sign".data)
    ∧ verify_email_smtp resolverOne peerAccept 0 "no-at-sign" stEmpty
        = (⟨"no-at-sign", some false, false, false, none,
            some "Invalid email format"⟩, stEmpty, ProbeTrace.zero) :=
  ⟨by decide,
    c7_no_at_sign_immediate_error resolverOne peerAccept 0 "no-at-sign"
      stEmpty (by decide)⟩

/-! ### Claim C8 -/

/-- C8: for every successful MX resolution with at least one record, the
returned `mx_records` sequence is ascending in `priority` and no host string
ends in a dot. -/
theorem c8_records_sorted_and_stripped (resolver : String → DnsOutcome)
    (d : String) (now : Nat) (st : MxState) (rs : List (Nat × String))
    (hmiss : cacheFind st.cache (get_mx_cache_key d) = none)
    (hres : resolver d = DnsOutcome.answers rs)
    (hne : rs ≠ []) :
    ((check_mx_records_cached resolver now d st).1.mx_records.Pairwise
        (fun a b => a.priority ≤ b.priority))
    ∧ ∀ r ∈ (check_mx_records_cached resolver now d st).1.mx_records,
        r.host.data.getLast? ≠ some '.' := by
  rw [check_mx_miss_success resolver d now st rs hmiss hres]
  constructor
  · exact pairwise_sortByPriority _
  · intro r hr
    simp only [mxSuccess] at hr
    rw [mem_sortByPriority] at hr
    rcases List.mem_map.mp hr with ⟨⟨pri, host⟩, _, rfl⟩
    exact rstripDot_no_trailing_dot host

/-- C8 witness: the concrete resolver answer `(10, "mx.example.com.")` comes
back sorted with the trailing root dot stripped. -/
theorem c8_records_witness :
    ((check_mx_records_cached resolverOne 0 "example.com"
        stEmpty).1.mx_records.Pairwise (fun a b => a.priority ≤ b.priority))
    ∧ ∀ r ∈ (check_mx_records_cached resolverOne 0 "example.com"
        stEmpty).1.mx_records, r.host.data.getLast? ≠ some '.' :=
  c8_records_sorted_and_stripped resolverOne "example.com" 0 stEmpty
    [(10, "mx.example.com.")] rfl rfl (by decide)

/-! ### Claim C9 -/

/-- C9: cache-key derivation is case-insensitive — for every domain `d`,
`get_mx_cache_key d = get_mx_cache_key (lower d)`; in particular
`"Example.com"` and `"example.com"` map to the same cache entry. -/
theorem c9_cache_key_case_insensitive :
    (∀ d : String, get_mx_cache_key d = get_mx_cache_key (lowerStr d))
    ∧ get_mx_cache_key "Example.com" = get_mx_cache_key "example.com" := by
  constructor
  · intro d
    rw [get_mx_cache_key, get_mx_cache_key, lowerStr_idem]
  · decide

/-! ### Claim C10 -/

/-- C10: every result returned by `verify_email_smtp`, on every branch, has
`catch_all = False`. -/
theorem c10_catch_all_always_false (resolver : String → DnsOutcome)
    (peer : SMTPPeer) (now : Nat) (email : String) (st : MxState) :
    (verify_email_smtp resolver peer now email st).1.catch_all = false := by
  simp only [verify_email_smtp]
  repeat' split
  all_goals rfl
